import Mathlib

/-!
Verification of `src/dom/DomManager.ts` (yay-filter).

The file shallow-embeds the DOM-facing operations of the `DomManager`
class.  DOM elements are abstract handles (`Nat`); a `Document` models the
queryable state of the host page at one instant; the polling discovery
protocol `withCommentContainer` is modelled as a fuel-indexed executor that
records the trace of callback invocations, the number of lookup attempts
and whether the session terminated (no further timer pending).
-/

/-- Modelled from the spec: the repository's `Config` module (referenced as
`Config.dom.selector.*` and `Config.dom.id.*` in `DomManager.ts`) is not
among the sources; the spec treats it as an external source of opaque CSS
selector strings and element-id strings.  We model it as a record of those
string constants and quantify over it. -/
structure Config where
  ytCommentContainer : String
  ytCommentTitle : String
  ytCommentThread : String
  ytCommentContents : String
  ytCommentText : String
  ytCommentSortItems : String
  yayFilterContainer : String
  yayFilterStatus : String
  yayFilterInfo : String

/-- A snapshot of the host page's DOM, as far as the lookups observe it:
the document-ordered list of element handles, each element's id attribute,
an abstract CSS-matching oracle for non-id selectors, each element's
document-ordered descendant list (for scoped queries), and each element's
nullable `textContent`. -/
structure Document where
  elems : List Nat
  idOf : Nat → String
  selMatches : Nat → String → Bool
  descOf : Nat → List Nat
  textContent : Nat → Option String

/-- Browser CSS-matching semantics, restricted to what the module uses: a
selector of the form `#id` (as built by `getElementById`) matches exactly
the elements whose id attribute is `id`; any other selector string is
decided by the document's abstract oracle. -/
def cssMatches (d : Document) (e : Nat) (q : String) : Bool :=
  match q.data with
  | '#' :: rest => d.idOf e == String.mk rest
  | _ => d.selMatches e q

/-- Browser `document.querySelector`: first element in document order
matching the selector, or absence. -/
def querySelector (d : Document) (q : String) : Option Nat :=
  d.elems.find? (fun e => cssMatches d e q)

/-- Browser `document.querySelectorAll`: all matching elements in document
order (possibly empty). -/
def querySelectorAll (d : Document) (q : String) : List Nat :=
  d.elems.filter (fun e => cssMatches d e q)

/-- Browser `ancestor.querySelector`: first matching descendant of the
ancestor element, or absence. -/
def querySelectorIn (d : Document) (a : Nat) (q : String) : Option Nat :=
  (d.descOf a).find? (fun e => cssMatches d e q)

/-- Browser `document.getElementById`: first element in document order
whose id attribute equals the argument, or absence. -/
def getElementByIdDoc (d : Document) (id : String) : Option Nat :=
  d.elems.find? (fun e => d.idOf e == id)

/-- Number of elements matching a query in the whole document; "zero
matches" below is `matchCount d q = 0`. -/
def matchCount (d : Document) (q : String) : Nat :=
  (querySelectorAll d q).length

/-- A DOM child node, as far as `replaceText` / `clearChildElements`
observe it: either a text node carrying a string value, or any other node
(an element, whose `nodeValue` is null). -/
inductive DomNode where
  | text (value : String)
  | element (tag : String)
deriving Repr, DecidableEq

/-- DOM semantics of assigning `node.nodeValue = v`: replaces the data of
a text node; for nodes whose `nodeValue` is null (elements), the DOM
standard specifies that setting it does nothing. -/
def setNodeValue (n : DomNode) (v : String) : DomNode :=
  match n with
  | DomNode.text _ => DomNode.text v
  | DomNode.element t => DomNode.element t

/-- Value of the first child when it is a text node, absence otherwise. -/
def firstChildText : List DomNode → Option String
  | DomNode.text v :: _ => some v
  | _ => none

/-- Number of child nodes that are not text nodes (sibling element nodes
such as icons). -/
def nonTextCount (cs : List DomNode) : Nat :=
  (cs.filter (fun c => match c with | DomNode.text _ => false | _ => true)).length

/-- Observable outcome of running a discovery session for a bounded number
of scheduled calls: the ordered list of callback invocations (argument
`none` for null, `some e` for a found element), the number of
`findCommentContainer` lookups performed, and whether the session
terminated (`true` iff no further `setTimeout` call is pending when the
fuel runs out). -/
structure RunResult where
  events : List (Option Nat)
  lookups : Nat
  terminated : Bool
deriving Repr, DecidableEq

namespace DomManager

/-- `DomManager.getElementByQuery(query, ancestor)`: query the ancestor
(or the whole document when the ancestor is null); throw
`Error("Element not found: " + query)` on no match (modelled as
`Except.error` carrying the message), return the element otherwise. -/
def getElementByQuery (d : Document) (query : String)
    (ancestor : Option Nat := none) : Except String Nat :=
  let elem := match ancestor with
    | none => querySelector d query
    | some a => querySelectorIn d a query
  match elem with
  | none => Except.error ("Element not found: " ++ query)
  | some e => Except.ok e

/-- `DomManager.getElementById(id)`: delegates to `getElementByQuery`
with the selector string `"#" + id`. -/
def getElementById (d : Document) (id : String) : Except String Nat :=
  getElementByQuery d ("#" ++ id)

/-- `DomManager.findCommentContainer()`: nullable whole-document query
with the configured comment-container selector. -/
def findCommentContainer (cfg : Config) (d : Document) : Option Nat :=
  querySelector d cfg.ytCommentContainer

/-- `DomManager.findCommentHeader()`. -/
def findCommentHeader (cfg : Config) (d : Document) : Option Nat :=
  querySelector d cfg.ytCommentTitle

/-- `DomManager.findYayFilterContainer()`: nullable
`document.getElementById` on the configured filter-container id. -/
def findYayFilterContainer (cfg : Config) (d : Document) : Option Nat :=
  getElementByIdDoc d cfg.yayFilterContainer

/-- `DomManager.getYayFilterContainer()`: throwing lookup on the same
configured filter-container id, via `getElementById`. -/
def getYayFilterContainer (cfg : Config) (d : Document) : Except String Nat :=
  getElementById d cfg.yayFilterContainer

/-- `DomManager.findYayFilterStatus()`. -/
def findYayFilterStatus (cfg : Config) (d : Document) : Option Nat :=
  getElementByIdDoc d cfg.yayFilterStatus

/-- `DomManager.findYayFilterInfo()`. -/
def findYayFilterInfo (cfg : Config) (d : Document) : Option Nat :=
  getElementByIdDoc d cfg.yayFilterInfo

/-- `DomManager.findCommentThreads()`: `querySelectorAll` on the
configured thread selector (possibly empty collection, never throws). -/
def findCommentThreads (cfg : Config) (d : Document) : List Nat :=
  querySelectorAll d cfg.ytCommentThread

/-- `DomManager.getCommentThreadContainer()`: throwing whole-document
lookup on the configured contents selector. -/
def getCommentThreadContainer (cfg : Config) (d : Document) : Except String Nat :=
  getElementByQuery d cfg.ytCommentContents

/-- `DomManager.fetchTextContent(thread)`: scoped nullable query for the
comment-text descendant; returns the empty string when the descendant is
absent or its `textContent` is null, the text otherwise.  Total, returns
`String` (no throwing path). -/
def fetchTextContent (cfg : Config) (d : Document) (thread : Nat) : String :=
  match querySelectorIn d thread cfg.ytCommentText with
  | none => ""
  | some t =>
    match d.textContent t with
    | none => ""
    | some s => s

/-- `DomManager.findSortItems()`. -/
def findSortItems (cfg : Config) (d : Document) : List Nat :=
  querySelectorAll d cfg.ytCommentSortItems

/-- `DomManager.withCommentContainer(callback, timeout, delay)` (defaults
`timeout = 30000`, `delay = 200`), run for a bounded number of scheduled
calls.  `dom n` is what `findCommentContainer` returns at the n-th lookup
(the DOM may change between timer ticks).  Each call mirrors the source
line by line: if `timeout <= 0` the callback fires with null (the source
has no `return` there, so execution falls through); then
`findCommentContainer` runs; on null a retry is scheduled via `setTimeout`
with `timeout - delay`, otherwise the callback fires with the element and
nothing further is scheduled.  Fuel counts scheduled calls; exhausted fuel
reports `terminated = false` (a timer is still pending). -/
def withCommentContainer (dom : Nat → Option Nat) (delay : Int) :
    Int → Nat → Nat → RunResult
  | _, _, 0 => ⟨[], 0, false⟩
  | timeout, n, fuel + 1 =>
    let pre : List (Option Nat) := if timeout ≤ 0 then [none] else []
    match dom n with
    | some e => ⟨pre ++ [some e], 1, true⟩
    | none =>
      let r := withCommentContainer dom delay (timeout - delay) (n + 1) fuel
      ⟨pre ++ r.events, r.lookups + 1, r.terminated⟩

/-- `DomManager.replaceText(elem, text)` acting on the element's child
list: with zero children, appends a fresh text node; otherwise assigns
`childNodes[0].nodeValue = text` (a no-op when that node is not a text
node). -/
def replaceText (children : List DomNode) (text : String) : List DomNode :=
  match children with
  | [] => [DomNode.text text]
  | c :: rest => setNodeValue c text :: rest

/-- `DomManager.clearChildElements(element)` acting on the child list:
`while (element.lastChild) element.removeChild(element.lastChild)`. -/
def clearChildElements : List DomNode → List DomNode
  | [] => []
  | c :: cs => clearChildElements ((c :: cs).dropLast)
termination_by l => l.length
decreasing_by
  simp [List.length_dropLast]

end DomManager

/-! ## Concrete DOM behaviors used in the discovery-protocol theorems -/

/-- A DOM in which the comment container is absent at every lookup. -/
def domNever : Nat → Option Nat := fun _ => none

/-- A DOM in which the comment container (handle 7) is present at every
lookup. -/
def domAlways7 : Nat → Option Nat := fun _ => some 7

/-- A DOM in which the comment container (handle 7) first appears at the
third lookup (index 2). -/
def domAppearsAt2 : Nat → Option Nat := fun n => if n < 2 then none else some 7

/-- Helper: a successful in-budget discovery trace.  If the first `k`
lookups fail, each inside a call whose timeout is still positive
(`k * d < t` with `d > 0`), and the lookup at index `n + k` finds `e`,
then the session emits exactly one callback, with the element, after
exactly `k + 1` lookups, and terminates. -/
theorem withCommentContainer_found (dom : Nat → Option Nat) (d : Int) (e : Nat) :
    ∀ (k : Nat) (t : Int) (n fuel : Nat), 0 < d → (k : Int) * d < t →
      (∀ i, i < k → dom (n + i) = none) → dom (n + k) = some e →
      k + 1 ≤ fuel →
      DomManager.withCommentContainer dom d t n fuel = ⟨[some e], k + 1, true⟩ := by
  intro k
  induction k with
  | zero =>
    intro t n fuel hd ht habs hfound hfuel
    match fuel, hfuel with
    | fuel + 1, _ =>
      have ht0 : ¬ t ≤ 0 := by
        simp only [Nat.cast_zero, zero_mul] at ht
        omega
      have hf : dom n = some e := by simpa using hfound
      simp [DomManager.withCommentContainer, hf, if_neg ht0]
  | succ k ih =>
    intro t n fuel hd ht habs hfound hfuel
    match fuel, hfuel with
    | fuel + 1, hfuel =>
      have hexp : ((k : Int) + 1) * d = (k : Int) * d + d := by ring
      have hk : (0 : Int) ≤ (k : Int) * d := by positivity
      push_cast at ht
      rw [hexp] at ht
      have ht0 : ¬ t ≤ 0 := by omega
      have hnone : dom n = none := by simpa using habs 0 (Nat.succ_pos k)
      have ih' := ih (t - d) (n + 1) fuel hd
        (by omega)
        (fun i hi => by
          have := habs (i + 1) (by omega)
          simpa [Nat.add_comm, Nat.add_assoc, Nat.add_left_comm] using this)
        (by
          have : n + 1 + k = n + (k + 1) := by omega
          rw [this]; exact hfound)
        (by omega)
      simp [DomManager.withCommentContainer, hnone, if_neg ht0, ih']

/-- C1: the claim says the callback fires exactly once per discovery
session.  The code violates it: when `timeout <= 0` the source calls
`callback(null)` but does not return, so it performs another lookup and
reschedules with an even smaller timeout.  With the container absent
throughout and `timeout = 200`, `delay = 200`, the first four scheduled
calls already fire the callback three times, and a retry timer is still
pending (`terminated = false`): the callback count grows without bound. -/
theorem c1_callback_fires_repeatedly :
    DomManager.withCommentContainer domNever 200 200 0 4 =
      ⟨[none, none, none], 4, false⟩ := by
  rfl

/-- C2: the claim says that with `timeout <= 0` the callback fires exactly
once with null, with zero lookup attempts.  The code, lacking a `return`
after `callback(null)`, still performs a lookup, and when the container is
present it invokes the callback a second time with the element: with
`timeout = 0` the trace is two callback invocations and one lookup. -/
theorem c2_nonpositive_timeout_still_looks_up :
    DomManager.withCommentContainer domAlways7 200 0 0 1 =
      ⟨[none, some 7], 1, true⟩ := by
  rfl

/-- C3: the claim says that with the container absent throughout,
`t = 400` and `d = 200` give exactly `⌈t / d⌉ = 2` lookups, one callback,
and no further attempts.  The code performs a lookup on every scheduled
call even after the budget is exhausted: after five calls it has done five
lookups, fired the callback three times, and still has a retry pending. -/
theorem c3_polling_never_stops :
    DomManager.withCommentContainer domNever 200 400 0 5 =
      ⟨[none, none, none], 5, false⟩ := by
  rfl

/-- C4: for timeout `t > 0`, interval `d > 0`, if the first `k` lookups
fail while the budget lasts (`k * d < t`, i.e. the element appears at an
in-budget attempt) and the lookup at index `k` finds element `e`, then the
callback is invoked exactly once, with that element, after exactly `k + 1`
lookups, and no further attempt is scheduled. -/
theorem c4_found_in_budget_fires_once (dom : Nat → Option Nat) (t d : Int)
    (k e fuel : Nat) (hd : 0 < d) (ht : (k : Int) * d < t)
    (habs : ∀ i, i < k → dom i = none) (hfound : dom k = some e)
    (hfuel : k + 1 ≤ fuel) :
    DomManager.withCommentContainer dom d t 0 fuel = ⟨[some e], k + 1, true⟩ :=
  withCommentContainer_found dom d e k t 0 fuel hd ht
    (fun i hi => by simpa using habs i hi) (by simpa using hfound) hfuel

/-- Witness for C4: with `t = 1000`, `d = 200` and the container appearing
at the third lookup, the session returns exactly one callback carrying the
element after three lookups and terminates. -/
theorem c4_witness :
    DomManager.withCommentContainer domAppearsAt2 200 1000 0 3 =
      ⟨[some 7], 3, true⟩ :=
  c4_found_in_budget_fires_once domAppearsAt2 1000 200 2 7 3 (by decide)
    (by decide) (by decide) (by decide) (by decide)

/-- Helper: `clearChildElements` always empties the child list. -/
theorem clearChildElements_eq_nil : ∀ cs : List DomNode,
    DomManager.clearChildElements cs = [] := by
  have aux : ∀ (n : Nat) (cs : List DomNode), cs.length ≤ n →
      DomManager.clearChildElements cs = [] := by
    intro n
    induction n with
    | zero =>
      intro cs h
      match cs with
      | [] => rw [DomManager.clearChildElements]
    | succ n ih =>
      intro cs h
      match cs with
      | [] => rw [DomManager.clearChildElements]
      | c :: rest =>
        rw [DomManager.clearChildElements]
        exact ih _ (by simp [List.length_dropLast] at h ⊢; omega)
  exact fun cs => aux cs.length cs (Nat.le_refl _)

/-- C6: `replaceText` on an element with zero child nodes leaves exactly
one child, a text node whose value is the given text. -/
theorem c6_replaceText_empty (text : String) :
    DomManager.replaceText [] text = [DomNode.text text] ∧
    (DomManager.replaceText [] text).length = 1 := by
  exact ⟨rfl, rfl⟩

/-- C7 counterexample: the claim promises, for every element and every
pair of strings, that the first child's text after two `replaceText` calls
equals the second argument.  When the first child is a non-text node
(e.g. an icon element), assigning its `nodeValue` is a DOM no-op, so the
element gains no text at all: with children `[element "svg"]` and texts
`"a"`, `"b"`, the first child's text is absent, not `"b"`. -/
theorem c7_first_child_element_no_text :
    firstChildText
        (DomManager.replaceText (DomManager.replaceText [DomNode.element "svg"] "a") "b")
      ≠ some "b" := by
  decide

/-- C7 (amended): two successive `replaceText` calls never change the
count of non-text child nodes; and when the element was empty or its first
child is a text node, the first child's text afterwards equals the second
call's argument. -/
theorem c7_amended_double_replaceText (cs : List DomNode) (s1 s2 : String) :
    nonTextCount (DomManager.replaceText (DomManager.replaceText cs s1) s2)
        = nonTextCount cs ∧
    ((cs = [] ∨ ∃ v rest, cs = DomNode.text v :: rest) →
      firstChildText (DomManager.replaceText (DomManager.replaceText cs s1) s2)
        = some s2) := by
  match cs with
  | [] =>
    exact ⟨rfl, fun _ => rfl⟩
  | DomNode.text v :: rest =>
    exact ⟨rfl, fun _ => rfl⟩
  | DomNode.element t :: rest =>
    refine ⟨rfl, fun h => ?_⟩
    rcases h with h | ⟨v, r, h⟩
    · exact absurd h (by simp)
    · exact absurd h (by simp)

/-- Witness for C7 (amended): on an element whose single child is a text
node, the second call's text wins and the non-text count stays zero. -/
theorem c7_amended_witness :
    nonTextCount
        (DomManager.replaceText (DomManager.replaceText [DomNode.text "x"] "a") "b")
        = nonTextCount [DomNode.text "x"] ∧
    firstChildText
        (DomManager.replaceText (DomManager.replaceText [DomNode.text "x"] "a") "b")
      = some "b" :=
  ⟨(c7_amended_double_replaceText [DomNode.text "x"] "a" "b").1,
   (c7_amended_double_replaceText [DomNode.text "x"] "a" "b").2
     (Or.inr ⟨"x", [], rfl⟩)⟩

/-- C8: `clearChildElements` empties any child list, is a no-op on an
already-empty element, and is idempotent. -/
theorem c8_clearChildElements (cs : List DomNode) :
    DomManager.clearChildElements cs = [] ∧
    DomManager.clearChildElements ([] : List DomNode) = [] ∧
    DomManager.clearChildElements (DomManager.clearChildElements cs)
      = DomManager.clearChildElements cs := by
  refine ⟨clearChildElements_eq_nil cs, clearChildElements_eq_nil [], ?_⟩
  rw [clearChildElements_eq_nil cs]
  exact clearChildElements_eq_nil []

/-- Helper: `find?` only depends on the values of its predicate. -/
theorem find?_ext {α} (p q : α → Bool) (h : ∀ a, p a = q a) :
    ∀ l : List α, l.find? p = l.find? q := by
  intro l
  induction l with
  | nil => rfl
  | cons a l ih =>
    simp only [List.find?]
    rw [h a]
    cases q a
    · exact ih
    · rfl

/-- Helper: the selector `"#" ++ id` matches exactly the elements whose id
attribute is `id`. -/
theorem cssMatches_hash (d : Document) (e : Nat) (id : String) :
    cssMatches d e ("#" ++ id) = (d.idOf e == id) := by
  cases id with
  | mk l => rfl

/-- Helper: `querySelector` on `"#" ++ id` agrees with
`document.getElementById id`. -/
theorem querySelector_hash (d : Document) (id : String) :
    querySelector d ("#" ++ id) = getElementByIdDoc d id := by
  unfold querySelector getElementByIdDoc
  exact find?_ext _ _ (fun e => cssMatches_hash d e id) d.elems

/-- Helper: a query with zero matches yields an absent `querySelector`. -/
theorem querySelector_of_no_match (d : Document) (q : String)
    (h : matchCount d q = 0) : querySelector d q = none := by
  have h0 : querySelectorAll d q = [] := List.length_eq_zero.mp h
  have h1 := List.filter_eq_nil_iff.mp h0
  exact List.find?_eq_none.mpr fun x hx => by simpa using h1 x hx

/-- Helper: a get-style whole-document lookup on a query with zero matches
yields the error carrying the query string. -/
theorem getElementByQuery_no_match (d : Document) (q : String)
    (h : matchCount d q = 0) :
    DomManager.getElementByQuery d q = Except.error ("Element not found: " ++ q) := by
  unfold DomManager.getElementByQuery
  rw [querySelector_of_no_match d q h]

/-- A concrete configuration instance (sample selector and id strings). -/
def cfg0 : Config :=
  ⟨"ytd-comments", "ytd-comments-header-renderer", "ytd-comment-thread-renderer",
   "#contents", "#content-text", "yt-sort-filter-sub-menu-renderer",
   "yay-filter-container", "yay-filter-status", "yay-filter-info"⟩

/-- A document with no elements at all. -/
def emptyDoc : Document :=
  ⟨[], fun _ => "", fun _ _ => false, fun _ => [], fun _ => none⟩

/-- C5: on a query with zero matches, every get-style lookup
(`getElementByQuery`, `getElementById`, `getYayFilterContainer`,
`getCommentThreadContainer`) throws the not-found error carrying the
offending query string, while find-style lookups on the same query return
null (`findCommentContainer`) or the empty collection
(`findCommentThreads`); the find-style family has no throwing path at all
(its return types are `Option` / `List`, never `Except.error`). -/
theorem c5_get_throws_find_returns_absence (d : Document) (cfg : Config) :
    (∀ q, matchCount d q = 0 →
      DomManager.getElementByQuery d q = Except.error ("Element not found: " ++ q)) ∧
    (∀ id, matchCount d ("#" ++ id) = 0 →
      DomManager.getElementById d id
        = Except.error ("Element not found: " ++ ("#" ++ id))) ∧
    (matchCount d ("#" ++ cfg.yayFilterContainer) = 0 →
      DomManager.getYayFilterContainer cfg d
        = Except.error ("Element not found: " ++ ("#" ++ cfg.yayFilterContainer))) ∧
    (matchCount d cfg.ytCommentContents = 0 →
      DomManager.getCommentThreadContainer cfg d
        = Except.error ("Element not found: " ++ cfg.ytCommentContents)) ∧
    (matchCount d cfg.ytCommentContainer = 0 →
      DomManager.findCommentContainer cfg d = none) ∧
    (matchCount d cfg.ytCommentThread = 0 →
      DomManager.findCommentThreads cfg d = []) := by
  refine ⟨fun q h => getElementByQuery_no_match d q h,
    fun id h => getElementByQuery_no_match d ("#" ++ id) h,
    fun h => getElementByQuery_no_match d ("#" ++ cfg.yayFilterContainer) h,
    fun h => getElementByQuery_no_match d cfg.ytCommentContents h,
    fun h => querySelector_of_no_match d cfg.ytCommentContainer h,
    fun h => List.length_eq_zero.mp h⟩

/-- Witness for C5: on an empty document, the throwing lookup errors with
the query in the message and the nullable lookup returns null. -/
theorem c5_witness :
    DomManager.getElementByQuery emptyDoc "ytd-comments" =
        Except.error ("Element not found: " ++ "ytd-comments") ∧
    DomManager.findCommentContainer cfg0 emptyDoc = none :=
  ⟨(c5_get_throws_find_returns_absence emptyDoc cfg0).1 "ytd-comments" (by decide),
   (c5_get_throws_find_returns_absence emptyDoc cfg0).2.2.2.2.1 (by decide)⟩

/-- A document whose element 1 (a comment thread) has descendant 2 with id
`content-text` and textContent `"nice video"`. -/
def textDoc : Document :=
  ⟨[1, 2], fun e => if e == 2 then "content-text" else "",
   fun _ _ => false, fun a => if a == 1 then [2] else [],
   fun e => if e == 2 then some "nice video" else none⟩

/-- C9: `fetchTextContent` is total with no throwing path (it returns a
plain `String`): when the comment-text descendant is absent it returns the
empty string; when the descendant is present but its `textContent` is
null it returns the empty string; otherwise it returns that descendant's
`textContent`. -/
theorem c9_fetchTextContent_total (cfg : Config) (d : Document) (thread : Nat) :
    (querySelectorIn d thread cfg.ytCommentText = none →
      DomManager.fetchTextContent cfg d thread = "") ∧
    (∀ t, querySelectorIn d thread cfg.ytCommentText = some t →
      d.textContent t = none →
      DomManager.fetchTextContent cfg d thread = "") ∧
    (∀ t s, querySelectorIn d thread cfg.ytCommentText = some t →
      d.textContent t = some s →
      DomManager.fetchTextContent cfg d thread = s) := by
  refine ⟨fun h => ?_, fun t h ht => ?_, fun t s h ht => ?_⟩
  · simp [DomManager.fetchTextContent, h]
  · simp [DomManager.fetchTextContent, h, ht]
  · simp [DomManager.fetchTextContent, h, ht]

/-- Witness for C9: on `textDoc`, the thread's comment text is fetched. -/
theorem c9_witness : DomManager.fetchTextContent cfg0 textDoc 1 = "nice video" :=
  (c9_fetchTextContent_total cfg0 textDoc 1).2.2 2 "nice video" (by decide) (by decide)

/-- A document with one element carrying the filter-container id. -/
def filterDoc : Document :=
  ⟨[5], fun e => if e == 5 then "yay-filter-container" else "",
   fun _ _ => false, fun _ => [], fun _ => none⟩

/-- C10: for every document and configuration, the throwing lookup
`getYayFilterContainer` succeeds exactly when the nullable lookup
`findYayFilterContainer` returns non-null, and on success they return
the same element: both resolve the same configured id constant
(`querySelector("#" + id)` agreeing with `getElementById(id)` under the
modelled CSS id-selector semantics). -/
theorem c10_get_find_agree (cfg : Config) (d : Document) :
    ((∃ e, DomManager.getYayFilterContainer cfg d = Except.ok e) ↔
      (∃ e, DomManager.findYayFilterContainer cfg d = some e)) ∧
    (∀ e, DomManager.findYayFilterContainer cfg d = some e →
      DomManager.getYayFilterContainer cfg d = Except.ok e) := by
  have key : DomManager.getYayFilterContainer cfg d =
      match DomManager.findYayFilterContainer cfg d with
      | none =>
        Except.error ("Element not found: " ++ ("#" ++ cfg.yayFilterContainer))
      | some e => Except.ok e := by
    unfold DomManager.getYayFilterContainer DomManager.getElementById
      DomManager.getElementByQuery DomManager.findYayFilterContainer
    rw [querySelector_hash]
  cases hf : DomManager.findYayFilterContainer cfg d with
  | none => rw [key, hf]; simp
  | some a => rw [key, hf]; simp

/-- Witness for C10: on `filterDoc`, the nullable lookup finds element 5
and the throwing lookup returns the same element. -/
theorem c10_witness :
    DomManager.getYayFilterContainer cfg0 filterDoc = Except.ok 5 :=
  (c10_get_find_agree cfg0 filterDoc).2 5 (by decide)
